import Mathlib

/-!
Verification of the server-side authentication actions module
(`app/lib/actions/auth-actions.ts`) of the alx-polly repository.

The module validates user input, delegates to an external auth provider
(Supabase), and sanitizes provider error messages.  We embed each exported
function as a pure Lean function: the provider's response is passed in as an
explicit argument (the code only observes the `error` field, or `data.user` /
`data.session`), and each action returns its `{error}` result together with a
Boolean recording whether the provider call was reached.  Strings are modelled
as Lean `String` (sequences of Unicode scalar values); the JavaScript regexes
are transcribed as executable backtracking matchers over `List Char`.
-/

/-- JavaScript string `includes`: helper, does `needle` start `hay`? -/
def listStartsWith : List Char → List Char → Bool
  | [], _ => true
  | _ :: _, [] => false
  | a :: as, b :: bs => a == b && listStartsWith as bs

/-- Does `needle` occur as a contiguous sublist of `hay`? -/
def listContainsSub : List Char → List Char → Bool
  | needle, [] => needle.isEmpty
  | needle, c :: rest => listStartsWith needle (c :: rest) || listContainsSub needle rest

/-- JavaScript `hay.includes(needle)` on strings. -/
def stringIncludes (hay needle : String) : Bool :=
  listContainsSub needle.toList hay.toList

/-- The character class `[^\s@]` of the email regex: any character that is
neither a JavaScript whitespace character (`\s`) nor `@`. -/
def emailChar (c : Char) : Bool :=
  !(c.val == 9 || c.val == 10 || c.val == 11 || c.val == 12 || c.val == 13 ||
    c.val == 32 || c.val == 160 || c.val == 0x1680 ||
    (0x2000 ≤ c.val && c.val ≤ 0x200a) || c.val == 0x2028 || c.val == 0x2029 ||
    c.val == 0x202f || c.val == 0x205f || c.val == 0x3000 || c.val == 0xfeff) &&
  c != '@'

/-- Backtracking matcher for `p+` followed by a continuation `k`: consume one
character satisfying `p`, then either hand the rest to `k` or keep consuming.
This is the standard semantics of a greedy-with-backtracking `+` in a
JavaScript regex (for a Boolean result the match order is irrelevant). -/
def matchPlusThen (p : Char → Bool) (k : List Char → Bool) : List Char → Bool
  | [] => false
  | c :: cs => p c && (k cs || matchPlusThen p k cs)

/-- Transcription of the email regex `^[^\s@]+@[^\s@]+\.[^\s@]+$` from
`login`: one or more non-space-non-`@` characters, a literal `@`, one or more
non-space-non-`@` characters, a literal `.`, one or more non-space-non-`@`
characters, end of string. -/
def emailRegexTest (s : String) : Bool :=
  matchPlusThen emailChar (fun rest1 =>
    match rest1 with
    | '@' :: rest2 =>
      matchPlusThen emailChar (fun rest3 =>
        match rest3 with
        | '.' :: rest4 => matchPlusThen emailChar (fun rest5 => rest5.isEmpty) rest4
        | _ => false) rest2
    | _ => false) s.toList

/-- The special-character class of the password strength regex:
`[!@#$%^&*()_+\-=[\]{};':"\\|,.<>/?]` (apostrophe, double quote, backslash and
the braces are written via their code points). -/
def strongSpecialChar (c : Char) : Bool :=
  ('!' == c) || ('@' == c) || ('#' == c) || ('$' == c) || ('%' == c) ||
  ('^' == c) || ('&' == c) || ('*' == c) || ('(' == c) || (')' == c) ||
  ('_' == c) || ('+' == c) || ('-' == c) || ('=' == c) || ('[' == c) ||
  (']' == c) || (Char.ofNat 123 == c) || (Char.ofNat 125 == c) ||
  (';' == c) || (Char.ofNat 39 == c) || (':' == c) || (Char.ofNat 34 == c) ||
  (Char.ofNat 92 == c) || ('|' == c) || (',' == c) || ('.' == c) ||
  ('<' == c) || ('>' == c) || ('/' == c) || ('?' == c)

/-- The JavaScript `.` (dot) without the `s` flag: any character except the
four line terminators LF, CR, U+2028, U+2029. -/
def jsDotChar (c : Char) : Bool :=
  !(c.val == 10 || c.val == 13 || c.val == 0x2028 || c.val == 0x2029)

/-- Matcher for a lookahead `(?=.*[class])` evaluated at the start of the
string: either the current character is in the class, or it is a `.`-matchable
character and the search continues. -/
def existsDotStarThen (p : Char → Bool) : List Char → Bool
  | [] => false
  | c :: cs => p c || (jsDotChar c && existsDotStarThen p cs)

/-- Transcription of the password strength regex
`^(?=.*[a-z])(?=.*[A-Z])(?=.*\d)(?=.*[special]).{8,}$` from `register`: four
lookaheads at position 0 (a lowercase ASCII letter, an uppercase ASCII letter,
a digit, a special character, each reachable through `.`-matchable
characters), then `.{8,}$`, i.e. the whole string consists of `.`-matchable
characters and has length at least 8. -/
def strongPasswordTest (s : String) : Bool :=
  let cs := s.toList
  existsDotStarThen Char.isLower cs &&
  existsDotStarThen Char.isUpper cs &&
  existsDotStarThen Char.isDigit cs &&
  existsDotStarThen strongSpecialChar cs &&
  decide (8 ≤ cs.length) && cs.all jsDotChar

/-- `LoginFormData` from `../types`: the fields `login` reads. -/
structure LoginFormData where
  email : String
  password : String
deriving Repr, DecidableEq

/-- `RegisterFormData` from `../types`: the fields `register` reads. -/
structure RegisterFormData where
  email : String
  password : String
  confirmPassword : String
  name : String
deriving Repr, DecidableEq

/-- The uniform `{error: string|null}` result shape of the actions. -/
structure ActionResult where
  error : Option String
deriving Repr, DecidableEq

/-- Outcome of the provider's `signInWithPassword` call as observed by
`login`: either no error, or an error carrying a message string. -/
inductive ProviderSignIn where
  | success : ProviderSignIn
  | failure (message : String) : ProviderSignIn
deriving Repr, DecidableEq

/-- Outcome of the provider's `signUp` call as observed by `register`.  The
code guards on the truthiness of `error.message`, so the message is modelled
as `Option String` (`none` for an absent message; the empty string is the
other falsy case). -/
inductive ProviderSignUp where
  | success : ProviderSignUp
  | failure (message : Option String) : ProviderSignUp
deriving Repr, DecidableEq

/-- Outcome of the provider's `signOut` call as observed by `logout`. -/
inductive ProviderSignOut where
  | success : ProviderSignOut
  | failure (message : String) : ProviderSignOut
deriving Repr, DecidableEq

/-- `login` from `auth-actions.ts`.  The provider outcome is the second
argument; the returned Boolean records whether the `signInWithPassword` call
was reached.  `!data.email`/`!data.password` on typed strings is emptiness. -/
def login (data : LoginFormData) (provider : ProviderSignIn) : ActionResult × Bool :=
  if data.email = "" || data.password = "" then
    ({ error := some "Email and password are required." }, false)
  else if !emailRegexTest data.email then
    ({ error := some "Please enter a valid email address." }, false)
  else
    match provider with
    | .failure msg =>
      if stringIncludes msg "Invalid login credentials" then
        ({ error := some "Invalid email or password." }, true)
      else
        ({ error := some "Could not authenticate user. Please try again." }, true)
    | .success => ({ error := none }, true)

/-- JavaScript `toLowerCase` restricted to its ASCII behavior (the substring
the code searches for, `"email"`, is ASCII, so only ASCII case folding is
observable here): lower-case every character via `Char.toLower`. -/
def jsToLowerCase (s : String) : String :=
  ⟨s.toList.map Char.toLower⟩

/-- The sign-up error sanitization inside `register`: `msg` starts as the
generic message and is replaced when `error.message` is truthy and its
lower-cased form includes `"email"`. -/
def signUpErrorMessage (message : Option String) : String :=
  match message with
  | none => "Registration failed. Please try again."
  | some s =>
    if s ≠ "" && stringIncludes (jsToLowerCase s) "email" then
      "Email is already in use or invalid."
    else
      "Registration failed. Please try again."

/-- `register` from `auth-actions.ts`.  The provider outcome is the second
argument; the returned Boolean records whether the `signUp` call was
reached. -/
def register (data : RegisterFormData) (provider : ProviderSignUp) : ActionResult × Bool :=
  if data.password ≠ data.confirmPassword then
    ({ error := some "Passwords do not match" }, false)
  else if !strongPasswordTest data.password then
    ({ error := some "Password must be at least 8 characters and include uppercase, lowercase, number, and special character." }, false)
  else
    match provider with
    | .failure msg => ({ error := some (signUpErrorMessage msg) }, true)
    | .success => ({ error := none }, true)

/-- `logout` from `auth-actions.ts`: forwards the provider sign-out error
message verbatim, `{error: null}` on success. -/
def logout (provider : ProviderSignOut) : ActionResult :=
  match provider with
  | .failure msg => { error := some msg }
  | .success => { error := none }

/-- The `data` part of the provider's `getUser()` response. -/
structure GetUserData (User : Type) where
  user : Option User
deriving Repr, DecidableEq

/-- The provider's `getUser()` response: the code destructures only `data`,
but the response also carries an error field, which is ignored. -/
structure GetUserResponse (User : Type) where
  data : GetUserData User
  error : Option String
deriving Repr, DecidableEq

/-- `getCurrentUser` from `auth-actions.ts`: returns `data.user` unmodified. -/
def getCurrentUser {User : Type} (resp : GetUserResponse User) : Option User :=
  resp.data.user

/-- The `data` part of the provider's `getSession()` response. -/
structure GetSessionData (Session : Type) where
  session : Option Session
deriving Repr, DecidableEq

/-- The provider's `getSession()` response. -/
structure GetSessionResponse (Session : Type) where
  data : GetSessionData Session
  error : Option String
deriving Repr, DecidableEq

/-- `getSession` from `auth-actions.ts`: returns `data.session` unmodified. -/
def getSession {Session : Type} (resp : GetSessionResponse Session) : Option Session :=
  resp.data.session

/-- C1: for a provider sign-in error whose message contains
"Invalid login credentials", `login` returns exactly
`{error: "Invalid email or password."}`; for any other provider sign-in
error it returns exactly `{error: "Could not authenticate user. Please try
again."}`; in both cases the result is a fixed constant, never the raw
provider message. -/
theorem login_signin_error_sanitized (data : LoginFormData) (msg : String)
    (hne : data.email ≠ "") (hpw : data.password ≠ "")
    (hmail : emailRegexTest data.email = true) :
    (stringIncludes msg "Invalid login credentials" = true →
      (login data (.failure msg)).fst = { error := some "Invalid email or password." }) ∧
    (stringIncludes msg "Invalid login credentials" = false →
      (login data (.failure msg)).fst =
        { error := some "Could not authenticate user. Please try again." }) := by
  constructor <;> intro h <;> simp [login, hne, hpw, hmail, h]

/-- Witness for C1: both branches at concrete inputs. -/
theorem login_signin_error_sanitized_witness :
    (login ⟨"a@b.com", "pw"⟩ (.failure "Invalid login credentials")).fst =
      { error := some "Invalid email or password." } ∧
    (login ⟨"a@b.com", "pw"⟩ (.failure "boom")).fst =
      { error := some "Could not authenticate user. Please try again." } :=
  ⟨(login_signin_error_sanitized ⟨"a@b.com", "pw"⟩ "Invalid login credentials"
      (by decide) (by decide) (by decide)).1 (by decide),
   (login_signin_error_sanitized ⟨"a@b.com", "pw"⟩ "boom"
      (by decide) (by decide) (by decide)).2 (by decide)⟩

/-- C2: the result of `login` on a provider failure depends on the error
message only through the predicate "contains the substring `Invalid login
credentials`": two failures agreeing on that predicate produce identical
results, so distinct provider failures are indistinguishable to the caller. -/
theorem login_provider_failure_indistinguishable (data : LoginFormData) (m1 m2 : String)
    (h : stringIncludes m1 "Invalid login credentials" =
         stringIncludes m2 "Invalid login credentials") :
    login data (.failure m1) = login data (.failure m2) := by
  simp only [login]
  rw [h]

/-- Witness for C2: two distinct generic provider failures give the same result. -/
theorem login_provider_failure_indistinguishable_witness :
    login ⟨"a@b.com", "pw"⟩ (.failure "boom") =
      login ⟨"a@b.com", "pw"⟩ (.failure "network down") :=
  login_provider_failure_indistinguishable ⟨"a@b.com", "pw"⟩ "boom" "network down" (by decide)

/-- C3: when the passwords match but the password fails the strength policy,
`register` returns the fixed strength-requirement message and does not reach
the provider call; when the password also passes the strength policy, the
provider sign-up call is reached. -/
theorem register_strength_check (data : RegisterFormData) (provider : ProviderSignUp)
    (hmatch : data.password = data.confirmPassword) :
    (strongPasswordTest data.password = false →
      register data provider =
        ({ error := some "Password must be at least 8 characters and include uppercase, lowercase, number, and special character." }, false)) ∧
    (strongPasswordTest data.password = true → (register data provider).snd = true) := by
  constructor
  · intro hweak
    have hweak2 : strongPasswordTest data.confirmPassword = false := hmatch ▸ hweak
    simp [register, hmatch, hweak, hweak2]
  · intro hstrong
    have hstrong2 : strongPasswordTest data.confirmPassword = true := hmatch ▸ hstrong
    cases provider <;> simp [register, hmatch, hstrong, hstrong2]

/-- Witness for C3: a weak matching password is rejected without a provider
call, and a strong matching password reaches the provider. -/
theorem register_strength_check_witness :
    register ⟨"a@b.com", "abc", "abc", "A"⟩ .success =
      ({ error := some "Password must be at least 8 characters and include uppercase, lowercase, number, and special character." }, false) ∧
    (register ⟨"a@b.com", "Abc123!@", "Abc123!@", "A"⟩ .success).snd = true :=
  ⟨(register_strength_check ⟨"a@b.com", "abc", "abc", "A"⟩ .success rfl).1 (by decide),
   (register_strength_check ⟨"a@b.com", "Abc123!@", "Abc123!@", "A"⟩ .success rfl).2 (by decide)⟩

/-- C4: whenever the password differs from its confirmation, `register`
returns `{error: "Passwords do not match"}` without a provider call; no
strength hypothesis is needed, so the mismatch message wins even for a weak
password. -/
theorem register_password_mismatch (data : RegisterFormData) (provider : ProviderSignUp)
    (h : data.password ≠ data.confirmPassword) :
    register data provider = ({ error := some "Passwords do not match" }, false) := by
  simp [register, h]

/-- Witness for C4: a mismatched pair of weak passwords returns the mismatch
message. -/
theorem register_password_mismatch_witness :
    register ⟨"a@b.com", "a", "b", "N"⟩ .success =
      ({ error := some "Passwords do not match" }, false) :=
  register_password_mismatch ⟨"a@b.com", "a", "b", "N"⟩ .success (by decide)

/-- C5: for an empty email or an empty password, `login` returns
`{error: "Email and password are required."}` and does not reach the
provider call. -/
theorem login_missing_fields (data : LoginFormData) (provider : ProviderSignIn)
    (h : data.email = "" ∨ data.password = "") :
    login data provider = ({ error := some "Email and password are required." }, false) := by
  have hb : (data.email = "" || data.password = "") = true := by
    rcases h with h | h <;> simp [h]
  simp [login, hb]

/-- Witness for C5: empty password at a concrete input. -/
theorem login_missing_fields_witness :
    login ⟨"a@b.com", ""⟩ .success =
      ({ error := some "Email and password are required." }, false) :=
  login_missing_fields ⟨"a@b.com", ""⟩ .success (Or.inr rfl)

/-- C6: with non-empty email and password, an email failing the regex makes
`login` return `{error: "Please enter a valid email address."}` without a
provider call, and an email passing the regex reaches the provider sign-in
call. -/
theorem login_email_format_check (data : LoginFormData) (provider : ProviderSignIn)
    (hne : data.email ≠ "") (hpw : data.password ≠ "") :
    (emailRegexTest data.email = false →
      login data provider = ({ error := some "Please enter a valid email address." }, false)) ∧
    (emailRegexTest data.email = true → (login data provider).snd = true) := by
  constructor
  · intro hbad
    simp [login, hne, hpw, hbad]
  · intro hgood
    cases provider with
    | success => simp [login, hne, hpw, hgood]
    | failure m =>
      simp [login, hne, hpw, hgood, apply_ite Prod.snd]

/-- Witness for C6: an invalid email is rejected without a provider call and
a valid one reaches the provider. -/
theorem login_email_format_check_witness :
    login ⟨"not-an-email", "pw"⟩ .success =
      ({ error := some "Please enter a valid email address." }, false) ∧
    (login ⟨"a@b.com", "pw"⟩ .success).snd = true :=
  ⟨(login_email_format_check ⟨"not-an-email", "pw"⟩ .success (by decide) (by decide)).1
      (by decide),
   (login_email_format_check ⟨"a@b.com", "pw"⟩ .success (by decide) (by decide)).2
      (by decide)⟩

/-- C7: for a provider sign-up error, `register` returns exactly
`{error: "Email is already in use or invalid."}` when the message contains
"email" case-insensitively, and exactly
`{error: "Registration failed. Please try again."}` otherwise — including
when the message is absent or empty. -/
theorem register_signup_error_sanitized (data : RegisterFormData) (message : Option String)
    (hmatch : data.password = data.confirmPassword)
    (hstrong : strongPasswordTest data.password = true) :
    (register data (.failure message)).fst.error =
      some (if stringIncludes (jsToLowerCase (message.getD "")) "email" then
              "Email is already in use or invalid."
            else "Registration failed. Please try again.") := by
  have hstrong2 : strongPasswordTest data.confirmPassword = true := hmatch ▸ hstrong
  have hreg : register data (.failure message) =
      ({ error := some (signUpErrorMessage message) }, true) := by
    simp [register, hmatch, hstrong, hstrong2]
  rw [hreg]
  cases message with
  | none =>
    have h0 : stringIncludes (jsToLowerCase "") "email" = false := by decide
    simp [signUpErrorMessage, Option.getD, h0]
  | some s =>
    by_cases hs : s = ""
    · subst hs
      have h0 : stringIncludes (jsToLowerCase "") "email" = false := by decide
      simp [signUpErrorMessage, Option.getD, h0]
    · simp [signUpErrorMessage, Option.getD, hs]

/-- Witness for C7: an "email" sign-up error, a generic one, and an absent
message at concrete inputs. -/
theorem register_signup_error_sanitized_witness :
    (register ⟨"a@b.com", "Abc123!@", "Abc123!@", "A"⟩
        (.failure (some "Email rate limit exceeded"))).fst.error =
      some "Email is already in use or invalid." ∧
    (register ⟨"a@b.com", "Abc123!@", "Abc123!@", "A"⟩
        (.failure none)).fst.error =
      some "Registration failed. Please try again." := by
  have h1 := register_signup_error_sanitized ⟨"a@b.com", "Abc123!@", "Abc123!@", "A"⟩
    (some "Email rate limit exceeded") rfl (by decide)
  have h2 := register_signup_error_sanitized ⟨"a@b.com", "Abc123!@", "Abc123!@", "A"⟩
    none rfl (by decide)
  have e1 : stringIncludes (jsToLowerCase "Email rate limit exceeded") "email" = true := by
    decide
  have e2 : stringIncludes (jsToLowerCase "") "email" = false := by decide
  exact ⟨by simpa [e1] using h1, by simpa [e2] using h2⟩

/-- C8: `getCurrentUser` and `getSession` forward the provider's `data.user`
and `data.session` values unmodified; the provider's error field never
reaches the caller, so a provider failure yields the forwarded value (null
when the provider reports no user), and no session means `none`, not an
error. -/
theorem getCurrentUser_getSession_forward {User Session : Type}
    (ru : GetUserResponse User) (rs : GetSessionResponse Session) :
    getCurrentUser ru = ru.data.user ∧
    getSession rs = rs.data.session ∧
    (∀ e : String, ru.error = some e → getCurrentUser ru = ru.data.user) ∧
    (ru.data.user = none → getCurrentUser ru = none) :=
  ⟨rfl, rfl, fun _ _ => rfl, fun h => h⟩

/-- Witness for C8: a failing provider response with no user yields `none`,
and a session lookup forwards its session value. -/
theorem getCurrentUser_getSession_forward_witness :
    getCurrentUser (⟨⟨none⟩, some "provider failure"⟩ : GetUserResponse Nat) = none ∧
    getSession (⟨⟨some 7⟩, none⟩ : GetSessionResponse Nat) = some 7 := by
  have h := getCurrentUser_getSession_forward
    (⟨⟨none⟩, some "provider failure"⟩ : GetUserResponse Nat)
    (⟨⟨some 7⟩, none⟩ : GetSessionResponse Nat)
  exact ⟨h.2.2.2 rfl, h.2.1⟩

/-- C9: `logout` forwards the raw provider sign-out error message verbatim as
`{error: message}`, and returns `{error: null}` on success. -/
theorem logout_forwards_raw_error (msg : String) :
    logout (.failure msg) = { error := some msg } ∧
    logout .success = { error := none } :=
  ⟨rfl, rfl⟩

/-- C10: `register` never inspects the email or name fields: any request
whose password matches its confirmation and passes the strength policy
reaches the provider sign-up call, for every email and name — including an
empty or syntactically invalid email. -/
theorem register_no_email_validation (email name password : String)
    (provider : ProviderSignUp) (hstrong : strongPasswordTest password = true) :
    (register { email := email, password := password,
                confirmPassword := password, name := name } provider).snd = true := by
  cases provider <;> simp [register, hstrong]

/-- Witness for C10: an empty email with a strong password still reaches the
provider. -/
theorem register_no_email_validation_witness :
    (register { email := "", password := "Abc123!@",
                confirmPassword := "Abc123!@", name := "" } .success).snd = true :=
  register_no_email_validation "" "" "Abc123!@" .success (by decide)
